import Mathlib

/-!
Shallow embedding of `src/lib/titlebar.js` (electron-titlebar-windows).

The widget is a class `TitleBar extends EventEmitter` holding an options
record, a DOM root element (`titlebarElement`) and three control buttons.
We model the options object, the observable parts of the DOM element, the
document-level state touched by `appendTo` (body class list, injected
stylesheets) and a mount container's child collection.  JavaScript
truthiness of the option fields (`undefined` and `""` are falsy) is made
explicit via `truthyBool` / `truthyStr`.  Events emitted via
`this.emit(...)` are collected in lists.
-/

namespace Titlebar

/-- The four event names the widget emits. -/
inductive TBEvent
  | close
  | minimize
  | maximize
  | restore
deriving DecidableEq, Repr

/-- The `this.options` object.  The constructor copies seven caller options;
`maximized` is not among them: it stays `undefined` (here `none`) until the
first `resize()` writes it (line 129 of the source). -/
structure Options where
  icon : Option String
  title : Option String
  color : Option String
  backgroundColor : Option String
  darkMode : Option Bool
  draggable : Option Bool
  fullscreen : Option Bool
  maximized : Option Bool
deriving DecidableEq, Repr

/-- JavaScript truthiness of a possibly-undefined boolean:
`undefined` is falsy. -/
def truthyBool (o : Option Bool) : Bool :=
  o.getD false

/-- JavaScript truthiness of a possibly-undefined string:
`undefined` and `""` are falsy. -/
def truthyStr (o : Option String) : Bool :=
  match o with
  | none => false
  | some s => !s.isEmpty

/-- The observable state of the widget's root DOM element: its class list,
the `.titlebar-title` text, the `.titlebar-icon` background image, the
inline colors set by `appendTo` and the bar background color. -/
structure Element where
  classes : List String
  titleText : Option String
  iconBackgroundImage : Option String
  titleColor : Option String
  rectFill : Option String
  pathFill : Option String
  polygonFill : Option String
  backgroundColor : Option String
deriving DecidableEq, Repr

/-- The element produced by `domify(titlebarView, document)`: no inline
styles, empty class list, no title text, no icon image. -/
def templateElement : Element :=
  ⟨[], none, none, none, none, none, none, none⟩

/-- `DOMTokenList.add`: appends the class if not already present. -/
def classListAdd (cs : List String) (c : String) : List String :=
  if c ∈ cs then cs else cs ++ [c]

/-- `DOMTokenList.remove`: removes all occurrences of the class. -/
def classListRemove (cs : List String) (c : String) : List String :=
  cs.filter (fun x => x ≠ c)

/-- The widget: its options object and root element.  `elemId` is the
identity of the root DOM node, used to track membership in a container's
child collection. -/
structure TitleBar where
  options : Options
  titlebarElement : Element
  elemId : Nat
deriving DecidableEq, Repr

/-- `setIcon(icon)`: sets the icon region's `backgroundImage` to
`"url(" + icon + ")"` (source line 187). -/
def TitleBar.setIcon (t : TitleBar) (icon : String) : TitleBar :=
  { t with titlebarElement :=
      { t.titlebarElement with iconBackgroundImage := some ("url(" ++ icon ++ ")") } }

/-- `setTitle(title)`: sets the title region's `innerText` (source line 195). -/
def TitleBar.setTitle (t : TitleBar) (title : String) : TitleBar :=
  { t with titlebarElement :=
      { t.titlebarElement with titleText := some title } }

/-- The constructor (source lines 44-66) followed by `init()` (72-93):
copies the seven options, builds the element from the template, then adds
the `draggable` class and applies icon/title when those options are truthy.
The event-listener wiring has no observable effect on the modelled state. -/
def TitleBar.construct (options : Options) (elemId : Nat) : TitleBar :=
  let opts : Options :=
    ⟨options.icon, options.title, options.color, options.backgroundColor,
     options.darkMode, options.draggable, options.fullscreen, none⟩
  let t : TitleBar := ⟨opts, templateElement, elemId⟩
  let t := if truthyBool opts.draggable then
      { t with titlebarElement :=
          { t.titlebarElement with
              classes := classListAdd t.titlebarElement.classes "draggable" } }
    else t
  let t := if truthyStr opts.icon then t.setIcon (opts.icon.getD "") else t
  let t := if truthyStr opts.title then t.setTitle (opts.title.getD "") else t
  t

/-- `close()` (source line 96): emits `close`, changes nothing. -/
def TitleBar.close (t : TitleBar) : TitleBar × List TBEvent :=
  (t, [TBEvent.close])

/-- `minimize()` (source line 99): emits `minimize`, changes nothing. -/
def TitleBar.minimize (t : TitleBar) : TitleBar × List TBEvent :=
  (t, [TBEvent.minimize])

/-- `maximize()` (source lines 102-105): adds the `maximized` class to the
root element and emits `maximize`.  It does not touch `options.maximized`. -/
def TitleBar.maximize (t : TitleBar) : TitleBar × List TBEvent :=
  ({ t with titlebarElement :=
      { t.titlebarElement with
          classes := classListAdd t.titlebarElement.classes "maximized" } },
   [TBEvent.maximize])

/-- `restore()` (source lines 108-111): removes the `maximized` class from
the root element and emits `restore`.  It does not touch `options.maximized`. -/
def TitleBar.restore (t : TitleBar) : TitleBar × List TBEvent :=
  ({ t with titlebarElement :=
      { t.titlebarElement with
          classes := classListRemove t.titlebarElement.classes "maximized" } },
   [TBEvent.restore])

/-- `resize()` (source lines 117-130): two sequential `if` statements (not
`if`/`else`) on `this.options.maximized`, then the flag is overwritten with
its JavaScript negation.  `restore()` does not modify the flag, so the
second `if` re-reads the same value the first one saw. -/
def TitleBar.resize (t : TitleBar) : TitleBar × List TBEvent :=
  let s1 := if truthyBool t.options.maximized then t.restore else (t, [])
  let s2 := if !truthyBool s1.1.options.maximized then
      let m := s1.1.maximize
      (m.1, s1.2 ++ m.2)
    else s1
  let t2 := s2.1
  ({ t2 with options :=
      { t2.options with maximized := some (!truthyBool t2.options.maximized) } },
   s2.2)

/-- Document-level state touched by `appendTo`: the body's class list and
the stylesheets injected by `defaultCss`, identified by logical name. -/
structure DocumentState where
  bodyClasses : List String
  styles : List String
deriving DecidableEq, Repr

/-- A mount container: its child collection, as a list of node identities. -/
structure Container where
  children : List Nat
deriving DecidableEq, Repr

/-- Modelled from the spec: the external `defaultcss` dependency (its code
is not part of this repository) "applies a stylesheet exactly once per
logical stylesheet name, idempotently, across all widget instances" —
injecting under a name already present is a no-op. -/
def defaultCss (styles : List String) (name : String) : List String :=
  if name ∈ styles then styles else styles ++ [name]

/-- `appendTo(context)` (source lines 147-171): if `darkMode !== false`
adds `titlebar-light` to the document body's class list; if `color` is
truthy colors the title text and the icon's rect/path/polygon shapes; if
`backgroundColor` is truthy sets the bar background; injects the
`titlebar` stylesheet via `defaultCss`; appends the root element to the
container's children. -/
def TitleBar.appendTo (t : TitleBar) (doc : DocumentState) (context : Container) :
    TitleBar × DocumentState × Container :=
  let doc := if t.options.darkMode ≠ some false then
      { doc with bodyClasses := classListAdd doc.bodyClasses "titlebar-light" }
    else doc
  let t := if truthyStr t.options.color then
      { t with titlebarElement :=
          { t.titlebarElement with
              titleColor := t.options.color, rectFill := t.options.color,
              pathFill := t.options.color, polygonFill := t.options.color } }
    else t
  let t := if truthyStr t.options.backgroundColor then
      { t with titlebarElement :=
          { t.titlebarElement with backgroundColor := t.options.backgroundColor } }
    else t
  let doc := { doc with styles := defaultCss doc.styles "titlebar" }
  let context := { context with children := context.children ++ [t.elemId] }
  (t, doc, context)

/-- The runtime error class `destroy()` raises. -/
inductive JsError
  | typeError
deriving DecidableEq, Repr

/-- `destroy()` (source lines 177-180) executes
`parent.removeChild(this.titlebarElement)`.  The identifier `parent` is
unbound in the module; in the renderer it resolves to the global
`window.parent`, a `Window`, which has no `removeChild` method, so the
call throws a `TypeError` before any node is detached. -/
def TitleBar.destroy (_t : TitleBar) : Except JsError TitleBar :=
  Except.error JsError.typeError

/-- The public operations of the widget, as an operation language. -/
inductive Op
  | minimize
  | maximize
  | restore
  | resize
  | close
  | setIcon (s : String)
  | setTitle (s : String)
  | appendTo
  | destroy
deriving DecidableEq, Repr

/-- A world: the widget, the document, one mount container, and the trace
of events emitted so far. -/
structure World where
  widget : TitleBar
  doc : DocumentState
  container : Container
  events : List TBEvent
deriving DecidableEq, Repr

/-- The world right after `new TitleBar(options)`: element built from the
template, nothing mounted yet, no events emitted. -/
def initWorld (options : Options) (elemId : Nat) (doc : DocumentState)
    (c : Container) : World :=
  ⟨TitleBar.construct options elemId, doc, c, []⟩

/-- One public operation applied to the world.  `destroy` throws a
`TypeError` (see `TitleBar.destroy`), leaving the world unchanged. -/
def step (w : World) (op : Op) : World :=
  match op with
  | Op.minimize =>
      let r := w.widget.minimize
      { w with widget := r.1, events := w.events ++ r.2 }
  | Op.maximize =>
      let r := w.widget.maximize
      { w with widget := r.1, events := w.events ++ r.2 }
  | Op.restore =>
      let r := w.widget.restore
      { w with widget := r.1, events := w.events ++ r.2 }
  | Op.resize =>
      let r := w.widget.resize
      { w with widget := r.1, events := w.events ++ r.2 }
  | Op.close =>
      let r := w.widget.close
      { w with widget := r.1, events := w.events ++ r.2 }
  | Op.setIcon s => { w with widget := w.widget.setIcon s }
  | Op.setTitle s => { w with widget := w.widget.setTitle s }
  | Op.appendTo =>
      let r := w.widget.appendTo w.doc w.container
      { w with widget := r.1, doc := r.2.1, container := r.2.2 }
  | Op.destroy =>
      match w.widget.destroy with
      | Except.ok t => { w with widget := t }
      | Except.error _ => w

/-- Run a sequence of public operations. -/
def run (w : World) (ops : List Op) : World :=
  ops.foldl step w

/-- Everything the claims treat as observable: the emitted event trace,
the truthiness of the `maximized` flag, the root element's state, the
document state and the container's children. -/
structure Observables where
  events : List TBEvent
  maximizedFlag : Bool
  view : Element
  doc : DocumentState
  container : Container
deriving DecidableEq, Repr

/-- Project a world to its observables. -/
def observe (w : World) : Observables :=
  ⟨w.events, truthyBool w.widget.options.maximized, w.widget.titlebarElement,
   w.doc, w.container⟩

/-- `n` consecutive `resize()` calls, collecting the emitted events in
order. -/
def resizeTrace (t : TitleBar) : Nat → TitleBar × List TBEvent
  | 0 => (t, [])
  | n + 1 =>
      let r := t.resize
      let rest := resizeTrace r.1 n
      (rest.1, r.2 ++ rest.2)

/-- The strictly alternating event list of length `n` starting from flag
state `b`: `restore` first when `b` is set, `maximize` first otherwise. -/
def altEvents : Bool → Nat → List TBEvent
  | _, 0 => []
  | b, n + 1 =>
      (if b then TBEvent.restore else TBEvent.maximize) :: altEvents (!b) n

/-- An options record with every field undefined. -/
def noOptions : Options :=
  ⟨none, none, none, none, none, none, none, none⟩

/-- An empty document: no body classes, no injected stylesheets. -/
def emptyDoc : DocumentState :=
  ⟨[], []⟩

/-- An empty mount container. -/
def emptyContainer : Container :=
  ⟨[]⟩

/-! ## Helper lemmas -/

theorem mem_classListAdd (cs : List String) (c : String) : c ∈ classListAdd cs c := by
  unfold classListAdd
  split
  · assumption
  · simp

theorem not_mem_classListRemove (cs : List String) (c : String) :
    c ∉ classListRemove cs c := by
  simp [classListRemove]

theorem mem_classListAdd_of_mem {cs : List String} {c : String} (d : String)
    (h : c ∈ cs) : c ∈ classListAdd cs d := by
  unfold classListAdd
  split
  · exact h
  · exact List.mem_append_left _ h

theorem mem_classListAdd_iff {cs : List String} {c d : String} :
    c ∈ classListAdd cs d ↔ (c ∈ cs ∨ c = d) := by
  unfold classListAdd
  split
  · next hd =>
      constructor
      · intro h
        exact Or.inl h
      · intro h
        cases h with
        | inl h => exact h
        | inr h => exact h ▸ hd
  · simp

theorem construct_options (options : Options) (elemId : Nat) :
    (TitleBar.construct options elemId).options =
      ⟨options.icon, options.title, options.color, options.backgroundColor,
       options.darkMode, options.draggable, options.fullscreen, none⟩ := by
  unfold TitleBar.construct TitleBar.setIcon TitleBar.setTitle
  dsimp only
  split <;> split <;> split <;> rfl

theorem construct_classes (options : Options) (elemId : Nat) :
    (TitleBar.construct options elemId).titlebarElement.classes =
      if truthyBool options.draggable then ["draggable"] else [] := by
  unfold TitleBar.construct TitleBar.setIcon TitleBar.setTitle templateElement
  dsimp only
  split <;> split <;> split <;> rfl

theorem construct_maximized (options : Options) (elemId : Nat) :
    (TitleBar.construct options elemId).options.maximized = none := by
  rw [construct_options]

theorem resize_flag (t : TitleBar) :
    (t.resize).1.options.maximized = some (!truthyBool t.options.maximized) := by
  cases hb : truthyBool t.options.maximized <;>
    simp [TitleBar.resize, TitleBar.restore, TitleBar.maximize, hb]

theorem resize_events (t : TitleBar) :
    (t.resize).2 = [if truthyBool t.options.maximized then TBEvent.restore
                    else TBEvent.maximize] := by
  cases hb : truthyBool t.options.maximized <;>
    simp [TitleBar.resize, TitleBar.restore, TitleBar.maximize, hb]

theorem resize_classes (t : TitleBar) :
    (t.resize).1.titlebarElement.classes =
      if truthyBool t.options.maximized then
        classListRemove t.titlebarElement.classes "maximized"
      else
        classListAdd t.titlebarElement.classes "maximized" := by
  cases hb : truthyBool t.options.maximized <;>
    simp [TitleBar.resize, TitleBar.restore, TitleBar.maximize, hb]

theorem appendTo_styles (t : TitleBar) (doc : DocumentState) (c : Container) :
    (t.appendTo doc c).2.1.styles = defaultCss doc.styles "titlebar" := by
  unfold TitleBar.appendTo
  dsimp only
  split <;> rfl

theorem appendTo_bodyClasses (t : TitleBar) (doc : DocumentState) (c : Container) :
    (t.appendTo doc c).2.1.bodyClasses =
      if t.options.darkMode ≠ some false then
        classListAdd doc.bodyClasses "titlebar-light"
      else doc.bodyClasses := by
  unfold TitleBar.appendTo
  dsimp only
  split <;> rfl

theorem appendTo_widget_options (t : TitleBar) (doc : DocumentState) (c : Container) :
    (t.appendTo doc c).1.options = t.options := by
  unfold TitleBar.appendTo
  dsimp only
  split <;> split <;> rfl

theorem appendTo_widget_maximized (t : TitleBar) (doc : DocumentState) (c : Container) :
    (t.appendTo doc c).1.options.maximized = t.options.maximized :=
  congrArg Options.maximized (appendTo_widget_options t doc c)

theorem appendTo_widget_classes (t : TitleBar) (doc : DocumentState) (c : Container) :
    (t.appendTo doc c).1.titlebarElement.classes = t.titlebarElement.classes := by
  unfold TitleBar.appendTo
  dsimp only
  split <;> split <;> rfl

theorem appendTo_children (t : TitleBar) (doc : DocumentState) (c : Container) :
    (t.appendTo doc c).2.2.children = c.children ++ [t.elemId] := by
  unfold TitleBar.appendTo
  dsimp only
  split <;> split <;> rfl

/-! ## C7 -/

/-- C7: `minimize()` emits exactly the single event `minimize` and `close()`
emits exactly the single event `close`; neither call changes any widget
state (the widget record, hence the `maximized` flag and the root node's
class list, is returned unchanged). -/
theorem minimize_close_pure (t : TitleBar) :
    t.minimize = (t, [TBEvent.minimize]) ∧ t.close = (t, [TBEvent.close]) :=
  ⟨rfl, rfl⟩

/-! ## C3 -/

/-- C3: for every widget state, `maximize()` adds the `maximized` marker to
the root node unconditionally and emits exactly the `maximize` event, and
`restore()` removes the marker unconditionally and emits exactly the
`restore` event; neither changes the `maximized` flag, and no public
operation other than `resize()` changes the flag. -/
theorem raw_setters_move_marker_not_flag (t : TitleBar) (w : World) (op : Op)
    (hop : op ≠ Op.resize) :
    "maximized" ∈ (t.maximize).1.titlebarElement.classes ∧
    (t.maximize).2 = [TBEvent.maximize] ∧
    (t.maximize).1.options.maximized = t.options.maximized ∧
    "maximized" ∉ (t.restore).1.titlebarElement.classes ∧
    (t.restore).2 = [TBEvent.restore] ∧
    (t.restore).1.options.maximized = t.options.maximized ∧
    (step w op).widget.options.maximized = w.widget.options.maximized := by
  refine ⟨mem_classListAdd _ _, rfl, rfl, not_mem_classListRemove _ _, rfl, rfl, ?_⟩
  cases op with
  | resize => exact absurd rfl hop
  | appendTo =>
      simp only [step]
      exact congrArg Options.maximized (appendTo_widget_options _ _ _)
  | _ => rfl

/-- C3 witness: the hypotheses of `raw_setters_move_marker_not_flag`
discharged at a concrete widget, world and operation. -/
theorem raw_setters_witness :
    (Op.close ≠ Op.resize) ∧
    ("maximized" ∈ ((TitleBar.construct noOptions 0).maximize).1.titlebarElement.classes ∧
     ((TitleBar.construct noOptions 0).maximize).2 = [TBEvent.maximize] ∧
     ((TitleBar.construct noOptions 0).maximize).1.options.maximized
        = (TitleBar.construct noOptions 0).options.maximized ∧
     "maximized" ∉ ((TitleBar.construct noOptions 0).restore).1.titlebarElement.classes ∧
     ((TitleBar.construct noOptions 0).restore).2 = [TBEvent.restore] ∧
     ((TitleBar.construct noOptions 0).restore).1.options.maximized
        = (TitleBar.construct noOptions 0).options.maximized ∧
     (step (initWorld noOptions 0 emptyDoc emptyContainer) Op.close).widget.options.maximized
        = (initWorld noOptions 0 emptyDoc emptyContainer).widget.options.maximized) :=
  ⟨by decide,
   raw_setters_move_marker_not_flag (TitleBar.construct noOptions 0)
     (initWorld noOptions 0 emptyDoc emptyContainer) Op.close (by decide)⟩

/-! ## C9 -/

/-- C9: constructing with `{title: "My App"}` sets the title region's text
to `"My App"`, and a subsequent `setTitle("X")` changes it to `"X"`. -/
theorem title_construct_then_setTitle :
    (TitleBar.construct ⟨none, some "My App", none, none, none, none, none, none⟩ 0).titlebarElement.titleText = some "My App" ∧
    ((TitleBar.construct ⟨none, some "My App", none, none, none, none, none, none⟩ 0).setTitle "X").titlebarElement.titleText = some "X" := by
  decide

/-! ## C10 -/

/-- C10: construction treats an empty-string `title` or `icon` as absent
(the truthiness guards in `init()` skip them), while calling `setTitle("")`
or `setIcon("")` directly does update the corresponding view element. -/
theorem empty_string_options_absent :
    (TitleBar.construct ⟨none, some "", none, none, none, none, none, none⟩ 0).titlebarElement.titleText = none ∧
    (TitleBar.construct ⟨some "", none, none, none, none, none, none, none⟩ 1).titlebarElement.iconBackgroundImage = none ∧
    ((TitleBar.construct ⟨none, some "", none, none, none, none, none, none⟩ 0).setTitle "").titlebarElement.titleText = some "" ∧
    ((TitleBar.construct ⟨some "", none, none, none, none, none, none, none⟩ 1).setIcon "").titlebarElement.iconBackgroundImage = some "url()" := by
  decide

/-! ## C4 -/

/-- C4 is violated by the code: `destroy()` dereferences the unbound global
`parent` (the window object), which has no `removeChild` method, so the
call throws a `TypeError` instead of detaching the root node; after
`appendTo` into a container and a `destroy()` call, the container's child
collection still contains the widget's root node. -/
theorem destroy_throws_and_leaves_child :
    ((TitleBar.construct noOptions 7).appendTo emptyDoc emptyContainer).1.destroy
      = Except.error JsError.typeError ∧
    7 ∈ ((TitleBar.construct noOptions 7).appendTo emptyDoc emptyContainer).2.2.children ∧
    (run (initWorld noOptions 7 emptyDoc emptyContainer) [Op.appendTo, Op.destroy]).container.children = [7] :=
  ⟨rfl, by decide, by decide⟩

/-! ## C6 -/

/-- C6: mounting applies the `titlebar-light` marker class to the shared
document body exactly when `darkMode` is not explicitly `false`: after
`appendTo` on a document whose body does not yet carry the marker, the
marker is present iff `darkMode ≠ some false`; in particular it is present
when `darkMode` is absent or `true`, and absent when `darkMode` is `false`. -/
theorem appendTo_light_theme_iff (t : TitleBar) (doc : DocumentState) (c : Container)
    (h : "titlebar-light" ∉ doc.bodyClasses) :
    ("titlebar-light" ∈ (t.appendTo doc c).2.1.bodyClasses ↔
      t.options.darkMode ≠ some false) := by
  rw [appendTo_bodyClasses]
  by_cases hd : t.options.darkMode ≠ some false
  · rw [if_pos hd]
    exact ⟨fun _ => hd, fun _ => mem_classListAdd _ _⟩
  · rw [if_neg hd]
    exact ⟨fun hmem => absurd hmem h, fun hne => absurd hne hd⟩

/-- C6 witness: `appendTo_light_theme_iff` applied to a widget constructed
with no `darkMode` option and an empty document. -/
theorem appendTo_light_theme_witness :
    ("titlebar-light" ∉ emptyDoc.bodyClasses) ∧
    ("titlebar-light" ∈
        ((TitleBar.construct noOptions 0).appendTo emptyDoc emptyContainer).2.1.bodyClasses ↔
      (TitleBar.construct noOptions 0).options.darkMode ≠ some false) :=
  ⟨by decide,
   appendTo_light_theme_iff (TitleBar.construct noOptions 0) emptyDoc emptyContainer
     (by decide)⟩

/-! ## C8 -/

theorem defaultCss_count_self (styles : List String) (name : String)
    (h : name ∉ styles) : (defaultCss styles name).count name = 1 := by
  unfold defaultCss
  rw [if_neg h, List.count_append]
  rw [List.count_eq_zero.mpr h]
  simp

theorem defaultCss_mem (styles : List String) (name : String) :
    name ∈ defaultCss styles name := by
  unfold defaultCss
  split
  · assumption
  · simp

theorem defaultCss_idem_of_mem (styles : List String) (name : String)
    (h : name ∈ styles) : defaultCss styles name = styles := by
  unfold defaultCss
  rw [if_pos h]

/-- C8: stylesheet injection is idempotent across widget instances —
mounting two separately constructed widgets into a document that does not
yet hold the `titlebar` stylesheet leaves exactly one copy of it in the
document, not two. -/
theorem style_injection_once (t1 t2 : TitleBar) (doc : DocumentState)
    (c1 c2 : Container) (h : "titlebar" ∉ doc.styles) :
    ((t2.appendTo ((t1.appendTo doc c1).2.1) c2).2.1.styles.count "titlebar") = 1 := by
  rw [appendTo_styles, appendTo_styles]
  rw [defaultCss_idem_of_mem _ _ (defaultCss_mem _ _)]
  exact defaultCss_count_self _ _ h

/-- C8 witness: `style_injection_once` applied to two freshly constructed
widgets and an empty document. -/
theorem style_injection_once_witness :
    ("titlebar" ∉ emptyDoc.styles) ∧
    (((TitleBar.construct noOptions 1).appendTo
        (((TitleBar.construct noOptions 0).appendTo emptyDoc emptyContainer).2.1)
        emptyContainer).2.1.styles.count "titlebar") = 1 :=
  ⟨by decide,
   style_injection_once (TitleBar.construct noOptions 0) (TitleBar.construct noOptions 1)
     emptyDoc emptyContainer emptyContainer (by decide)⟩

/-! ## C1 -/

theorem succ_mod_two_beq (n : Nat) : ((n + 1) % 2 == 1) = !(n % 2 == 1) := by
  rcases Nat.mod_two_eq_zero_or_one n with h | h <;> simp [Nat.add_mod, h]

theorem resizeTrace_spec (n : Nat) : ∀ t : TitleBar,
    truthyBool (resizeTrace t n).1.options.maximized
      = (truthyBool t.options.maximized ^^ (n % 2 == 1)) ∧
    (resizeTrace t n).2 = altEvents (truthyBool t.options.maximized) n := by
  induction n with
  | zero =>
      intro t
      refine ⟨?_, rfl⟩
      show truthyBool t.options.maximized
          = (truthyBool t.options.maximized ^^ (0 % 2 == 1))
      cases truthyBool t.options.maximized <;> rfl
  | succ n ih =>
      intro t
      obtain ⟨ih1, ih2⟩ := ih t.resize.1
      have hflag : truthyBool t.resize.1.options.maximized
          = !truthyBool t.options.maximized := by
        rw [resize_flag]
        rfl
      constructor
      · show truthyBool (resizeTrace t.resize.1 n).1.options.maximized = _
        rw [ih1, hflag, succ_mod_two_beq]
        cases truthyBool t.options.maximized <;> cases n % 2 == 1 <;> rfl
      · show t.resize.2 ++ (resizeTrace t.resize.1 n).2 = _
        rw [ih2, hflag, resize_events]
        rfl

theorem altEvents_eq_ofFn (n : Nat) : ∀ b : Bool,
    altEvents b n = List.ofFn (fun k : Fin n =>
      if b ^^ (k.1 % 2 == 1) then TBEvent.restore else TBEvent.maximize) := by
  induction n with
  | zero => intro b; rfl
  | succ n ih =>
      intro b
      rw [List.ofFn_succ]
      show (if b then TBEvent.restore else TBEvent.maximize) :: altEvents (!b) n = _
      rw [ih (!b)]
      congr 1
      · cases b <;> rfl
      · apply congrArg List.ofFn
        funext k
        simp only [Fin.val_succ, succ_mod_two_beq]
        cases b <;> cases k.1 % 2 == 1 <;> rfl

/-- C1: starting from a freshly constructed widget (any configuration) and
calling only `resize()`: after `N` calls the `maximized` flag is truthy iff
`N % 2 = 1`, and the emitted trace has exactly one event per call,
alternating strictly — call `k` (0-based index `k-1`) emits `maximize` for
odd `k` and `restore` for even `k`. -/
theorem resize_toggle_alternation (options : Options) (elemId n : Nat) :
    truthyBool (resizeTrace (TitleBar.construct options elemId) n).1.options.maximized
      = (n % 2 == 1) ∧
    (resizeTrace (TitleBar.construct options elemId) n).2
      = List.ofFn (fun k : Fin n =>
          if k.1 % 2 == 0 then TBEvent.maximize else TBEvent.restore) := by
  obtain ⟨h1, h2⟩ := resizeTrace_spec n (TitleBar.construct options elemId)
  have hc : truthyBool (TitleBar.construct options elemId).options.maximized = false := by
    rw [construct_maximized]
    rfl
  constructor
  · rw [h1, hc]
    cases n % 2 == 1 <;> rfl
  · rw [h2, hc, altEvents_eq_ofFn]
    apply congrArg List.ofFn
    funext k
    rcases Nat.mod_two_eq_zero_or_one k.1 with h | h <;> simp [h]

/-! ## C2 -/

/-- The invariant claimed by the spec: the `maximized` flag is truthy iff
the root element carries the `maximized` class. -/
def FlagMarkerInv (w : World) : Prop :=
  truthyBool w.widget.options.maximized = true ↔
    "maximized" ∈ w.widget.titlebarElement.classes

theorem step_preserves_flagMarker {w : World} {op : Op}
    (h1 : op ≠ Op.maximize) (h2 : op ≠ Op.restore)
    (hw : FlagMarkerInv w) : FlagMarkerInv (step w op) := by
  cases op with
  | maximize => exact absurd rfl h1
  | restore => exact absurd rfl h2
  | resize =>
      unfold FlagMarkerInv at hw ⊢
      simp only [step]
      rw [resize_flag, resize_classes]
      cases truthyBool w.widget.options.maximized
      · exact iff_of_true rfl (mem_classListAdd _ _)
      · exact iff_of_false (by decide) (not_mem_classListRemove _ _)
  | appendTo =>
      unfold FlagMarkerInv at hw ⊢
      simp only [step]
      rw [appendTo_widget_classes, appendTo_widget_maximized]
      exact hw
  | destroy => exact hw
  | _ => exact hw

theorem initWorld_flagMarker (options : Options) (elemId : Nat)
    (doc : DocumentState) (c : Container) :
    FlagMarkerInv (initWorld options elemId doc c) := by
  unfold FlagMarkerInv initWorld
  dsimp only
  apply iff_of_false
  · rw [construct_maximized]
    decide
  · rw [construct_classes]
    split <;> decide

theorem run_preserves_flagMarker : ∀ (ops : List Op) (w : World),
    (∀ op ∈ ops, op ≠ Op.maximize ∧ op ≠ Op.restore) →
    FlagMarkerInv w → FlagMarkerInv (run w ops) := by
  intro ops
  induction ops with
  | nil =>
      intro w _ hw
      exact hw
  | cons op ops ih =>
      intro w h hw
      have hop := h op (List.mem_cons_self op ops)
      have hrest : ∀ o ∈ ops, o ≠ Op.maximize ∧ o ≠ Op.restore :=
        fun o ho => h o (List.mem_cons_of_mem op ho)
      exact ih (step w op) hrest (step_preserves_flagMarker hop.1 hop.2 hw)

/-- C2 counterexample: the state reached from construction by the single
public operation `maximize()` has the `maximized` class on the root node
while the `maximized` flag is still falsy — flag and marker diverge, so the
claimed invariant over all reachable states is false. -/
theorem flag_marker_counterexample :
    "maximized" ∈ (run (initWorld noOptions 0 emptyDoc emptyContainer)
        [Op.maximize]).widget.titlebarElement.classes ∧
    truthyBool (run (initWorld noOptions 0 emptyDoc emptyContainer)
        [Op.maximize]).widget.options.maximized = false := by
  decide

/-- C2 amended: in every state reachable from construction via public
operations other than the raw setters `maximize()` and `restore()`, the
`maximized` flag is truthy iff the root node carries the `maximized`
class; the raw setters move the marker without the flag and can
desynchronize the two. -/
theorem flag_marker_invariant_without_raw_setters (options : Options)
    (elemId : Nat) (doc : DocumentState) (c : Container) (ops : List Op)
    (h : ∀ op ∈ ops, op ≠ Op.maximize ∧ op ≠ Op.restore) :
    (truthyBool (run (initWorld options elemId doc c) ops).widget.options.maximized = true
      ↔ "maximized" ∈ (run (initWorld options elemId doc c) ops).widget.titlebarElement.classes) :=
  run_preserves_flagMarker ops (initWorld options elemId doc c) h
    (initWorld_flagMarker options elemId doc c)

/-- C2 witness: the amended invariant evaluated after a single `resize()`
call on a freshly constructed widget. -/
theorem flag_marker_invariant_witness :
    (∀ op ∈ [Op.resize], op ≠ Op.maximize ∧ op ≠ Op.restore) ∧
    (truthyBool (run (initWorld noOptions 0 emptyDoc emptyContainer)
        [Op.resize]).widget.options.maximized = true
      ↔ "maximized" ∈ (run (initWorld noOptions 0 emptyDoc emptyContainer)
        [Op.resize]).widget.titlebarElement.classes) :=
  ⟨by decide,
   flag_marker_invariant_without_raw_setters noOptions 0 emptyDoc emptyContainer
     [Op.resize] (by decide)⟩

/-! ## C5 -/

/-- Replace only the `fullscreen` field of an options record. -/
def Options.setFullscreen (o : Options) (fs : Option Bool) : Options :=
  { o with fullscreen := fs }

/-- Replace only the stored `fullscreen` option of a widget. -/
def TitleBar.setFullscreen (t : TitleBar) (fs : Option Bool) : TitleBar :=
  { t with options := t.options.setFullscreen fs }

/-- Replace only the widget's stored `fullscreen` option inside a world. -/
def World.setFullscreen (w : World) (fs : Option Bool) : World :=
  { w with widget := w.widget.setFullscreen fs }

theorem construct_setFullscreen (options : Options) (fs : Option Bool) (elemId : Nat) :
    TitleBar.construct (options.setFullscreen fs) elemId
      = (TitleBar.construct options elemId).setFullscreen fs := by
  by_cases h1 : truthyBool options.draggable <;>
  by_cases h2 : truthyStr options.icon <;>
  by_cases h3 : truthyStr options.title <;>
  simp [TitleBar.construct, TitleBar.setFullscreen, Options.setFullscreen,
        TitleBar.setIcon, TitleBar.setTitle, h1, h2, h3]

theorem step_setFullscreen (w : World) (op : Op) (fs : Option Bool) :
    step (w.setFullscreen fs) op = (step w op).setFullscreen fs := by
  cases op with
  | resize =>
      cases hb : truthyBool w.widget.options.maximized <;>
        simp only [truthyBool] at hb <;>
        simp [step, World.setFullscreen, TitleBar.setFullscreen, Options.setFullscreen,
              TitleBar.resize, TitleBar.restore, TitleBar.maximize, truthyBool, hb]
  | appendTo =>
      by_cases h1 : w.widget.options.darkMode ≠ some false <;>
      by_cases h2 : truthyStr w.widget.options.color <;>
      by_cases h3 : truthyStr w.widget.options.backgroundColor <;>
      simp [step, World.setFullscreen, TitleBar.setFullscreen, Options.setFullscreen,
            TitleBar.appendTo, h1, h2, h3]
  | _ => rfl

theorem run_setFullscreen (ops : List Op) : ∀ (w : World) (fs : Option Bool),
    run (w.setFullscreen fs) ops = (run w ops).setFullscreen fs := by
  induction ops with
  | nil =>
      intro w fs
      rfl
  | cons op ops ih =>
      intro w fs
      show run (step (w.setFullscreen fs) op) ops = _
      rw [step_setFullscreen]
      exact ih (step w op) fs

theorem observe_setFullscreen (w : World) (fs : Option Bool) :
    observe (w.setFullscreen fs) = observe w :=
  rfl

theorem initWorld_setFullscreen (options : Options) (fs : Option Bool) (elemId : Nat)
    (doc : DocumentState) (c : Container) :
    initWorld (options.setFullscreen fs) elemId doc c
      = (initWorld options elemId doc c).setFullscreen fs := by
  unfold initWorld World.setFullscreen
  rw [construct_setFullscreen]

/-- C5: the `fullscreen` option is stored but never consulted — two widgets
whose configurations differ only in the `fullscreen` field produce, for
every sequence of public operations, identical observables (emitted
events, `maximized` flag, view state, document state, container state). -/
theorem fullscreen_unobservable (options : Options) (fs1 fs2 : Option Bool)
    (elemId : Nat) (doc : DocumentState) (c : Container) (ops : List Op) :
    observe (run (initWorld (options.setFullscreen fs1) elemId doc c) ops)
      = observe (run (initWorld (options.setFullscreen fs2) elemId doc c) ops) := by
  rw [initWorld_setFullscreen, initWorld_setFullscreen,
      run_setFullscreen, run_setFullscreen,
      observe_setFullscreen, observe_setFullscreen]

end Titlebar
